import Mathlib

/-!
# Verification of `testing-postgres-rs` (`src/lib.rs`)

Shallow embedding of the crate's single module: the `PsqlServer::start`
construction sequence, its readiness-polling loop, and the `Drop`
implementation.  OS interactions (locating tools with `which`, creating the
temporary directory, creating subdirectories, running the external tools,
binding a TCP listener, spawning and polling the server process) are modelled
by an oracle `Env` that fixes the outcome of each OS call; the embedded
`start` consumes the oracle and returns the Rust function's outcome together
with a trace of the completed external actions and the post-return resource
state.

Two pieces of Rust *language* semantics are part of the embedding, because
the claims are about them:

* dropping a `std::process::Child` does **not** kill or reap the child
  process (documented behaviour of the Rust standard library); so when
  `start` returns `Err` after the spawn, the spawned server keeps running
  with no owner — recorded in `RunResult.orphanedServer`;
* dropping a `tempdir::TempDir` removes the directory tree (best effort);
  so when `start` returns `Err` after `TempDir::new` succeeded, the storage
  root is deleted — recorded in `RunResult.tempDirExists`.  On a panic the
  default unwind also drops the live locals, so the same applies.

Calls that the source wraps in `.expect(...)` are modelled as a `panic`
outcome (a channel distinct from the `Result` return value); calls the
source maps into `PsqlServerError::IoError` are modelled as `Except` values
in the oracle.  The unbounded `loop` is modelled with explicit fuel: `fuel`
bounds the number of polling iterations the model executes, and theorems
about the loop hypothesise enough fuel for the oracle's settled outcome.
-/

namespace TestingPostgres

/-- An OS-level error (`std::io::Error`), abstracted to an error code. -/
structure IoErr where
  code : Nat
deriving DecidableEq

/-- The observable part of a finished child process (`std::process::Output`):
whether its exit status was success. -/
structure Output where
  success : Bool
deriving DecidableEq

/-- The four external executables the crate requires. -/
inductive Tool
  | postgres
  | initdb
  | createdb
  | pgIsready
deriving DecidableEq

/-- A completed external action of `PsqlServer::start` or of the drop glue,
in the order the call performed it. -/
inductive Event
  /-- a `which <tool>` lookup completed -/
  | whichCmd (t : Tool)
  /-- the call `TempDir::new("postgresql")` created the storage root at `path` -/
  | tempDirCreate (path : String)
  /-- the call `fs::create_dir` created `path` -/
  | mkdir (path : String)
  /-- a tool ran to completion via `.output()` with the given argument list -/
  | runTool (t : Tool) (args : List String)
  /-- a throwaway listener bound port 0 and reported `port` -/
  | bindPort (port : Nat)
  /-- the server process was spawned with the given argument list and with
  stdout/stderr piped -/
  | spawnServer (args : List String) (stdoutPiped stderrPiped : Bool)
  /-- the poll `process.try_wait()` was consulted in polling iteration `i` -/
  | tryWaitCheck (i : Nat)
  /-- the probe `pg_isready` ran in polling iteration `i` with the given arguments -/
  | probe (i : Nat) (args : List String)
  /-- the call `thread::sleep` slept for `ms` milliseconds -/
  | sleep (ms : Nat)
deriving DecidableEq

/-- The error enum `PsqlServerError` of the source, verbatim. -/
inductive PsqlServerError
  | CouldNotFindPostgresCommand
  | CouldNotFindInitDbCommand
  | CouldNotFindCreateDbCommand
  | CouldNotFindPgIsReadyCommand
  | InitDbFailed
  | CreateDbFailed
  | PostgresFailed
  | IoError (e : IoErr)
deriving DecidableEq

/-- The handle struct `PsqlServer`: the source holds `process: Child`,
`base_dir: Option<TempDir>` and `pub port: u16`.  The child-process handle
carries no observable data in the model; the `TempDir` is represented by its
path. -/
structure PsqlServer where
  baseDir : Option String
  port : Nat
deriving DecidableEq

/-- How a run of `PsqlServer::start` ends: the `Ok`/`Err` of the source's
`Result`, a panic raised by one of the source's `.expect(...)` calls, or
`fuelOut` when the model's polling fuel ran out before the loop settled
(a modelling artifact, never a behaviour of the source). -/
inductive StartResult
  | ok (s : PsqlServer)
  | err (e : PsqlServerError)
  | panic (msg : String)
  | fuelOut
deriving DecidableEq

/-- holds (as `true`) exactly when the run ended in the source's `Err(_)` channel. -/
def StartResult.isErr : StartResult → Bool
  | .err _ => true
  | _ => false

/-- holds (as `true`) exactly when the run ended in a panic from an `.expect(...)`. -/
def StartResult.isPanic : StartResult → Bool
  | .panic _ => true
  | _ => false

/-- Oracle fixing the outcome of every OS interaction of one run of
`PsqlServer::start`.  `none` on a `which` field means the tool was not found;
`none` on an `.output()`/`.spawn()` field means that OS call itself failed,
which the source turns into a panic via `.expect`.  The polling fields are
indexed by the loop iteration. -/
structure Env where
  whichPostgres : Option String
  whichInitdb : Option String
  whichCreatedb : Option String
  whichPgIsready : Option String
  /-- outcome of `TempDir::new("postgresql")`: the storage-root path, or an OS error -/
  tempDirNew : Except IoErr String
  /-- outcome of `fs::create_dir(data_path)` -/
  mkdirData : Except IoErr Unit
  /-- outcome of `fs::create_dir(tmp_path)` -/
  mkdirTmp : Except IoErr Unit
  /-- the `initdb` invocation: its collected output, or `none` if running it
  failed at the OS level (source panics) -/
  initdbOutput : Option Output
  /-- outcome of `get_unused_port()`: bind a listener to port 0 and read the port back -/
  bindPort : Except IoErr Nat
  /-- the `postgres` spawn: `some ()` on success, `none` if the OS-level
  spawn failed (source panics) -/
  spawnOk : Option Unit
  /-- outcome of `process.try_wait()` in polling iteration `i`: `ok none` while
  the process runs, `ok (some code)` once it has exited, `error` on OS failure -/
  tryWaitRes : Nat → Except IoErr (Option Nat)
  /-- the `pg_isready` invocation in polling iteration `i`: its output, or
  `none` if running it failed at the OS level (source panics) -/
  isreadyOutput : Nat → Option Output
  /-- the `createdb` invocation after readiness: its output, or `none` if
  running it failed at the OS level (source panics) -/
  createdbOutput : Option Output

/-- Argument list of the `initdb` invocation, verbatim from the source. -/
def initdbArgs (dataPath : String) : List String :=
  ["-D", dataPath, "--lc-messages=C", "-U", "postgres", "-A", "trust"]

/-- Argument list of the `postgres` spawn, verbatim from the source. -/
def postgresArgs (port : Nat) (dataPath tmpPath : String) : List String :=
  ["-p", toString port, "-D", dataPath, "-k", tmpPath, "-h", "127.0.0.1",
   "-F", "-c", "logging_collector=off"]

/-- Argument list of each `pg_isready` probe, verbatim from the source. -/
def pgIsreadyArgs (port : Nat) : List String :=
  ["-p", toString port, "-h", "127.0.0.1", "-U", "postgres"]

/-- Argument list of the `createdb` invocation, verbatim from the source. -/
def createdbArgs (port : Nat) : List String :=
  ["-p", toString port, "-h", "127.0.0.1", "-U", "postgres", "test"]

/-- How the readiness loop ends. -/
inductive LoopExit
  /-- the probe returned success: `break` out of the loop -/
  | ready
  /-- the poll reported the process exited: `Err(PostgresFailed)` -/
  | exited
  /-- the poll itself failed: `Err(IoError e)` -/
  | ioErr (e : IoErr)
  /-- running `pg_isready` failed at the OS level: panic -/
  | probePanic
deriving DecidableEq

/-- The source's readiness `loop`, with explicit fuel.  Each iteration `i`
first consults `try_wait`, then (only if the process is still running) runs
`pg_isready`; on a failed probe it sleeps 500 ms and retries.  Returns the
events of the executed iterations and the loop's exit, `none` when the fuel
ran out first. -/
def pollLoop (env : Env) (port : Nat) : Nat → Nat → List Event × Option LoopExit
  | 0, _ => ([], none)
  | fuel + 1, i =>
    match env.tryWaitRes i with
    | .error e => ([.tryWaitCheck i], some (.ioErr e))
    | .ok (some _) => ([.tryWaitCheck i], some .exited)
    | .ok none =>
      match env.isreadyOutput i with
      | none => ([.tryWaitCheck i, .probe i (pgIsreadyArgs port)], some .probePanic)
      | some out =>
        if out.success then
          ([.tryWaitCheck i, .probe i (pgIsreadyArgs port)], some .ready)
        else
          let rest := pollLoop env port fuel (i + 1)
          (.tryWaitCheck i :: .probe i (pgIsreadyArgs port) :: .sleep 500 :: rest.1, rest.2)

/-- Everything observable about one run of `PsqlServer::start`: the outcome,
the trace of completed external actions, whether the storage root still
exists on disk after the call returns, and whether a spawned server process
is left running with no owning handle after the call returns. -/
structure RunResult where
  result : StartResult
  trace : List Event
  tempDirExists : Bool
  orphanedServer : Bool
deriving DecidableEq

/-- The tail of `start` from the readiness loop's outcome onwards: the
`PostgresFailed` / `IoError` returns out of the loop, the `createdb`
provisioning once ready, and the final `Ok(PsqlServer { .. })`.  On every
`Err` after the spawn the `Child` is dropped without being killed
(`orphanedServer` stays `true` unless `try_wait` saw the process exit) and
the dropped `TempDir` removes the storage root. -/
def finishFromLoop (env : Env) (basePath : String) (port : Nat) (pre : List Event) :
    List Event × Option LoopExit → RunResult
  | (ltr, none) => ⟨.fuelOut, pre ++ ltr, true, true⟩
  | (ltr, some .exited) => ⟨.err .PostgresFailed, pre ++ ltr, false, false⟩
  | (ltr, some (.ioErr e)) => ⟨.err (.IoError e), pre ++ ltr, false, true⟩
  | (ltr, some .probePanic) =>
      ⟨.panic "failed to execute pg_isready", pre ++ ltr, false, true⟩
  | (ltr, some .ready) =>
    match env.createdbOutput with
    | none => ⟨.panic "failed to execute createdb", pre ++ ltr, false, true⟩
    | some out =>
      if out.success then
        ⟨.ok ⟨some basePath, port⟩,
         pre ++ ltr ++ [.runTool .createdb (createdbArgs port)], true, false⟩
      else
        ⟨.err .CreateDbFailed,
         pre ++ ltr ++ [.runTool .createdb (createdbArgs port)], false, true⟩

/-- The embedding of `PsqlServer::start`, step for step: resolve the four
tools (each missing tool is a distinct error, raised before anything is
allocated); create the storage root and its `data` and `tmp` subdirectories;
run `initdb` (non-zero exit is `InitDbFailed`); reserve a loopback port;
spawn `postgres` with piped stdout/stderr; poll readiness; run `createdb`
(non-zero exit is `CreateDbFailed`); return the handle. -/
def start (env : Env) (fuel : Nat) : RunResult :=
  match env.whichPostgres with
  | none => ⟨.err .CouldNotFindPostgresCommand, [.whichCmd .postgres], false, false⟩
  | some _ =>
  match env.whichInitdb with
  | none => ⟨.err .CouldNotFindInitDbCommand,
             [.whichCmd .postgres, .whichCmd .initdb], false, false⟩
  | some _ =>
  match env.whichCreatedb with
  | none => ⟨.err .CouldNotFindCreateDbCommand,
             [.whichCmd .postgres, .whichCmd .initdb, .whichCmd .createdb], false, false⟩
  | some _ =>
  match env.whichPgIsready with
  | none => ⟨.err .CouldNotFindPgIsReadyCommand,
             [.whichCmd .postgres, .whichCmd .initdb, .whichCmd .createdb,
              .whichCmd .pgIsready], false, false⟩
  | some _ =>
  let tr0 : List Event :=
    [.whichCmd .postgres, .whichCmd .initdb, .whichCmd .createdb, .whichCmd .pgIsready]
  match env.tempDirNew with
  | .error e => ⟨.err (.IoError e), tr0, false, false⟩
  | .ok basePath =>
  let dataPath := basePath ++ "/data"
  let tmpPath := basePath ++ "/tmp"
  let tr1 := tr0 ++ [Event.tempDirCreate basePath]
  match env.mkdirData with
  | .error e => ⟨.err (.IoError e), tr1, false, false⟩
  | .ok _ =>
  let tr2 := tr1 ++ [Event.mkdir dataPath]
  match env.mkdirTmp with
  | .error e => ⟨.err (.IoError e), tr2, false, false⟩
  | .ok _ =>
  let tr3 := tr2 ++ [Event.mkdir tmpPath]
  match env.initdbOutput with
  | none => ⟨.panic "failed to execute initdb", tr3, false, false⟩
  | some initOut =>
  let tr4 := tr3 ++ [Event.runTool .initdb (initdbArgs dataPath)]
  if initOut.success then
    match env.bindPort with
    | .error e => ⟨.err (.IoError e), tr4, false, false⟩
    | .ok port =>
    let tr5 := tr4 ++ [Event.bindPort port]
    match env.spawnOk with
    | none => ⟨.panic "failed to execute psql", tr5, false, false⟩
    | some _ =>
    let tr6 := tr5 ++ [Event.spawnServer (postgresArgs port dataPath tmpPath) true true]
    finishFromLoop env basePath port tr6 (pollLoop env port fuel 0)
  else
    ⟨.err .InitDbFailed, tr4, false, false⟩

/-- A completed step of the `Drop` implementation. -/
inductive DropEvent
  /-- the call `self.process.kill()` succeeded -/
  | kill
  /-- the call `self.process.wait()` succeeded (the child is reaped) -/
  | wait
  /-- the call `TempDir::close()` deleted the storage root -/
  | removeDir
deriving DecidableEq

/-- How the `Drop` implementation ends: cleanly, or by a panic from one of
its `.expect(...)` / `.unwrap()` calls. -/
inductive DropOutcome
  | ok
  | panicked (msg : String)
deriving DecidableEq

/-- Oracle fixing the outcome of the three OS calls of the `Drop`
implementation. -/
structure DropEnv where
  killResult : Except IoErr Unit
  waitResult : Except IoErr Unit
  closeResult : Except IoErr Unit

/-- The embedding of `impl Drop for PsqlServer`: kill the owned process,
wait for it (reap), then `self.base_dir.take().unwrap().close()`.  Each step
runs only after the previous one succeeded; a failing step (or a `None`
`base_dir`, which makes the `unwrap` panic) aborts with a panic.  Returns
the completed steps and the outcome. -/
def dropPsql (s : PsqlServer) (env : DropEnv) : List DropEvent × DropOutcome :=
  match env.killResult with
  | .error _ => ([], .panicked "failed to kill postgres")
  | .ok _ =>
  match env.waitResult with
  | .error _ => ([.kill], .panicked "....")
  | .ok _ =>
  match s.baseDir with
  | none => ([.kill, .wait], .panicked "called Option::unwrap on a None value")
  | some _ =>
  match env.closeResult with
  | .error _ => ([.kill, .wait], .panicked "failed to delete temp dir")
  | .ok _ => ([.kill, .wait, .removeDir], .ok)

/-- The embedding of `impl fmt::Debug for PsqlServer`: the source unwraps
`base_dir`, so the formatter panics (`none`) exactly when `base_dir` is
`None`. -/
def debugFmt (s : PsqlServer) : Option String :=
  match s.baseDir with
  | none => none
  | some p =>
      some ("PsqlServer \x7b port: " ++ toString s.port ++ ", base_dir: " ++ p ++ " \x7d")

/-- All four `which` lookups of the run succeeded, with the given resolved
paths. -/
def toolsResolved (env : Env) (pp ip cp rp : String) : Prop :=
  env.whichPostgres = some pp ∧ env.whichInitdb = some ip ∧
  env.whichCreatedb = some cp ∧ env.whichPgIsready = some rp

/-- Every stage of the run up to and including the server spawn succeeded:
storage root at `basePath`, both subdirectories created, `initdb` exited
zero, the listener reported `port`, and the spawn succeeded. -/
def reachesSpawn (env : Env) (basePath : String) (port : Nat) : Prop :=
  env.tempDirNew = .ok basePath ∧ env.mkdirData = .ok () ∧ env.mkdirTmp = .ok () ∧
  env.initdbOutput = some ⟨true⟩ ∧ env.bindPort = .ok port ∧ env.spawnOk = some ()

/-- The event trace of a run that reached the server spawn, up to and
including the spawn. -/
def setupTrace (basePath : String) (port : Nat) : List Event :=
  [.whichCmd .postgres, .whichCmd .initdb, .whichCmd .createdb, .whichCmd .pgIsready,
   .tempDirCreate basePath,
   .mkdir (basePath ++ "/data"), .mkdir (basePath ++ "/tmp"),
   .runTool .initdb (initdbArgs (basePath ++ "/data")),
   .bindPort port,
   .spawnServer (postgresArgs port (basePath ++ "/data") (basePath ++ "/tmp")) true true]

/-- Polling iteration `k` is non-terminal: the process is still running and
the probe ran but reported not ready. -/
def aliveAndFail (env : Env) (k : Nat) : Prop :=
  env.tryWaitRes k = .ok none ∧ env.isreadyOutput k = some ⟨false⟩

/-- The events of `j` consecutive non-terminal polling iterations starting
at iteration `i`. -/
def failIters (port : Nat) (i j : Nat) : List Event :=
  (List.range j).flatMap fun k =>
    [.tryWaitCheck (i + k), .probe (i + k) (pgIsreadyArgs port), .sleep 500]

/-- The one-iteration outcome of the readiness loop at iteration `n`, when
that iteration is terminal (`none` when the loop would continue). -/
def stepTerminal (env : Env) (port : Nat) (n : Nat) : Option (List Event × LoopExit) :=
  match env.tryWaitRes n with
  | .error e => some ([.tryWaitCheck n], .ioErr e)
  | .ok (some _) => some ([.tryWaitCheck n], .exited)
  | .ok none =>
    match env.isreadyOutput n with
    | none => some ([.tryWaitCheck n, .probe n (pgIsreadyArgs port)], .probePanic)
    | some out =>
      if out.success then
        some ([.tryWaitCheck n, .probe n (pgIsreadyArgs port)], .ready)
      else
        none

/-- Number of `sleep` events in a trace. -/
def countSleeps : List Event → Nat
  | [] => 0
  | .sleep _ :: t => countSleeps t + 1
  | _ :: t => countSleeps t

/-- the predicate `before tr p q` holds when both an event satisfying `p` and an event
satisfying `q` occur in `tr`, and the first `p`-event strictly precedes the
first `q`-event. -/
def before (tr : List Event) (p q : Event → Bool) : Bool :=
  match tr.findIdx? p, tr.findIdx? q with
  | some i, some j => decide (i < j)
  | _, _ => false

/-- Recognizes the storage-root-creation event. -/
def isTempDirCreateEvt : Event → Bool
  | .tempDirCreate _ => true
  | _ => false

/-- Recognizes the `initdb` invocation event. -/
def isInitdbEvt : Event → Bool
  | .runTool .initdb _ => true
  | _ => false

/-- Recognizes the port-reservation event. -/
def isBindPortEvt : Event → Bool
  | .bindPort _ => true
  | _ => false

/-- Recognizes the server-spawn event. -/
def isSpawnEvt : Event → Bool
  | .spawnServer _ _ _ => true
  | _ => false

/-- Recognizes the events of the readiness loop (process poll, probe, or
inter-attempt sleep). -/
def isPollEvt : Event → Bool
  | .tryWaitCheck _ => true
  | .probe _ _ => true
  | .sleep _ => true
  | _ => false

lemma failIters_succ (port i j : Nat) :
    failIters port i (j + 1) =
      Event.tryWaitCheck i :: Event.probe i (pgIsreadyArgs port) :: Event.sleep 500 ::
        failIters port (i + 1) j := by
  simp only [failIters, List.range_succ_eq_map]
  simp only [List.flatMap_cons]
  rw [List.flatMap_map]
  simp [Function.comp, Nat.succ_eq_add_one, Nat.add_comm, Nat.add_assoc, Nat.add_left_comm]

lemma countSleeps_append (a b : List Event) :
    countSleeps (a ++ b) = countSleeps a + countSleeps b := by
  induction a with
  | nil => simp [countSleeps]
  | cons e t ih =>
    cases e <;> simp [countSleeps, ih, Nat.add_assoc, Nat.add_comm, Nat.add_left_comm]

lemma countSleeps_failIters (port i j : Nat) :
    countSleeps (failIters port i j) = j := by
  induction j generalizing i with
  | zero => rfl
  | succ j ih => rw [failIters_succ]; simp [countSleeps, ih]

lemma sleep_mem_failIters {port i j ms : Nat}
    (h : Event.sleep ms ∈ failIters port i j) : ms = 500 := by
  induction j generalizing i with
  | zero => simp [failIters] at h
  | succ j ih =>
    rw [failIters_succ] at h
    simp only [List.mem_cons] at h
    rcases h with h | h | h | h
    · cases h
    · cases h
    · cases h; rfl
    · exact ih h

lemma probe_mem_failIters {port i j n : Nat} {a : List String}
    (h : Event.probe n a ∈ failIters port i j) : n < i + j := by
  induction j generalizing i with
  | zero => simp [failIters] at h
  | succ j ih =>
    rw [failIters_succ] at h
    simp only [List.mem_cons] at h
    rcases h with h | h | h | h
    · cases h
    · cases h; omega
    · cases h
    · have := ih h; omega

lemma pollLoop_cont {env : Env} {port i : Nat} (fuel : Nat)
    (h : aliveAndFail env i) :
    pollLoop env port (fuel + 1) i =
      (Event.tryWaitCheck i :: Event.probe i (pgIsreadyArgs port) :: Event.sleep 500 ::
         (pollLoop env port fuel (i + 1)).1,
       (pollLoop env port fuel (i + 1)).2) := by
  obtain ⟨h1, h2⟩ := h
  simp [pollLoop, h1, h2]

lemma pollLoop_terminal {env : Env} {port : Nat} {tr : List Event} {ex : LoopExit} :
    ∀ (j i fuel : Nat), (∀ k, k < j → aliveAndFail env (i + k)) →
      stepTerminal env port (i + j) = some (tr, ex) → j < fuel →
      pollLoop env port fuel i = (failIters port i j ++ tr, some ex) := by
  intro j
  induction j with
  | zero =>
    intro i fuel _ hstep hfuel
    obtain ⟨f, rfl⟩ : ∃ f, fuel = f + 1 := ⟨fuel - 1, by omega⟩
    simp only [Nat.add_zero] at hstep
    unfold pollLoop
    rcases hw : env.tryWaitRes i with e | st
    · simp only [stepTerminal, hw, Option.some.injEq, Prod.mk.injEq] at hstep
      simp [hw, failIters, hstep.1, hstep.2]
    · rcases st with _ | code
      · rcases hr : env.isreadyOutput i with _ | out
        · simp only [stepTerminal, hw, hr, Option.some.injEq, Prod.mk.injEq] at hstep
          simp [hw, hr, failIters, hstep.1, hstep.2]
        · rcases out with ⟨b⟩
          cases b
          · simp [stepTerminal, hw, hr] at hstep
          · simp only [stepTerminal, hw, hr, if_pos, Option.some.injEq,
              Prod.mk.injEq] at hstep
            simp [hw, hr, failIters, hstep.1, hstep.2]
      · simp only [stepTerminal, hw, Option.some.injEq, Prod.mk.injEq] at hstep
        simp [hw, failIters, hstep.1, hstep.2]
  | succ j ih =>
    intro i fuel hpre hstep hfuel
    obtain ⟨f, rfl⟩ : ∃ f, fuel = f + 1 := ⟨fuel - 1, by omega⟩
    have h0 : aliveAndFail env i := by
      have := hpre 0 (by omega); simpa using this
    rw [pollLoop_cont f h0]
    have hpre' : ∀ k, k < j → aliveAndFail env (i + 1 + k) := by
      intro k hk
      have := hpre (k + 1) (by omega)
      have he : i + (k + 1) = i + 1 + k := by omega
      rwa [he] at this
    have hstep' : stepTerminal env port (i + 1 + j) = some (tr, ex) := by
      have he : i + (j + 1) = i + 1 + j := by omega
      rwa [he] at hstep
    have := ih (i + 1) f hpre' hstep' (by omega)
    rw [failIters_succ]
    simp [this]

lemma pollLoop_head (env : Env) (port f i : Nat) :
    ∃ t, (pollLoop env port (f + 1) i).1 = Event.tryWaitCheck i :: t := by
  unfold pollLoop
  rcases env.tryWaitRes i with e | st
  · exact ⟨[], rfl⟩
  · rcases st with _ | code
    · rcases env.isreadyOutput i with _ | out
      · exact ⟨_, rfl⟩
      · rcases out with ⟨b⟩
        cases b
        · exact ⟨_, rfl⟩
        · exact ⟨_, rfl⟩
    · exact ⟨[], rfl⟩

lemma start_spawn_eq {env : Env} {pp ip cp rp basePath : String} {port fuel : Nat}
    (ht : toolsResolved env pp ip cp rp) (hs : reachesSpawn env basePath port) :
    start env fuel =
      finishFromLoop env basePath port (setupTrace basePath port)
        (pollLoop env port fuel 0) := by
  obtain ⟨h1, h2, h3, h4⟩ := ht
  obtain ⟨h5, h6, h7, h8, h9, h10⟩ := hs
  simp only [start, h1, h2, h3, h4, h5, h6, h7, h8, h9, h10]
  rfl

lemma finishFromLoop_ready_ok {env : Env} (basePath : String) (port : Nat)
    (pre ltr : List Event) (hcdb : env.createdbOutput = some ⟨true⟩) :
    finishFromLoop env basePath port pre (ltr, some .ready) =
      ⟨.ok ⟨some basePath, port⟩,
       pre ++ ltr ++ [.runTool .createdb (createdbArgs port)], true, false⟩ := by
  simp [finishFromLoop, hcdb]

lemma finishFromLoop_ready_err {env : Env} (basePath : String) (port : Nat)
    (pre ltr : List Event) (hcdb : env.createdbOutput = some ⟨false⟩) :
    finishFromLoop env basePath port pre (ltr, some .ready) =
      ⟨.err .CreateDbFailed,
       pre ++ ltr ++ [.runTool .createdb (createdbArgs port)], false, true⟩ := by
  simp [finishFromLoop, hcdb]

lemma finish_trace_shape (env : Env) (basePath : String) (port : Nat)
    (pre : List Event) (lp : List Event × Option LoopExit) :
    ∃ rest, (finishFromLoop env basePath port pre lp).trace = pre ++ lp.1 ++ rest := by
  rcases lp with ⟨ltr, ex⟩
  rcases ex with _ | ex
  · exact ⟨[], by simp [finishFromLoop]⟩
  · rcases ex with _ | _ | e | _
    · rcases hc : env.createdbOutput with _ | out
      · exact ⟨[], by simp [finishFromLoop, hc]⟩
      · rcases out with ⟨b⟩
        cases b
        · exact ⟨[.runTool .createdb (createdbArgs port)], by simp [finishFromLoop, hc]⟩
        · exact ⟨[.runTool .createdb (createdbArgs port)], by simp [finishFromLoop, hc]⟩
    · exact ⟨[], by simp [finishFromLoop]⟩
    · exact ⟨[], by simp [finishFromLoop]⟩
    · exact ⟨[], by simp [finishFromLoop]⟩

/-- A fully healthy oracle: all four tools resolve, every OS call succeeds,
the server stays alive and reports ready at the first probe, and `createdb`
succeeds. -/
def baseEnv : Env where
  whichPostgres := some "/usr/bin/postgres"
  whichInitdb := some "/usr/bin/initdb"
  whichCreatedb := some "/usr/bin/createdb"
  whichPgIsready := some "/usr/bin/pg_isready"
  tempDirNew := .ok "/tmp/postgresql-Ab12Cd"
  mkdirData := .ok ()
  mkdirTmp := .ok ()
  initdbOutput := some ⟨true⟩
  bindPort := .ok 54321
  spawnOk := some ()
  tryWaitRes := fun _ => .ok none
  isreadyOutput := fun _ => some ⟨true⟩
  createdbOutput := some ⟨true⟩

/-- A healthy run in which the final `createdb` exits non-zero. -/
def envCreatedbFails : Env := { baseEnv with createdbOutput := some ⟨false⟩ }

/-- C1.  The claim says every failing run of `PsqlServer::start` leaves no
spawned server process running and tears the storage root down.  The code
violates the first half: when `createdb` exits non-zero after the server
became ready, `start` returns `Err(CreateDbFailed)` by dropping the local
`Child`, and dropping a Rust `Child` neither kills nor reaps the process —
the spawned `postgres` keeps running with no owner (`orphanedServer =
true`).  The storage-root half does hold (the dropped `TempDir` deletes it,
`tempDirExists = false`).  This theorem evaluates the embedded code at the
failing input. -/
theorem claim1_createdb_failure_orphans_server :
    (start envCreatedbFails 1).result = .err .CreateDbFailed ∧
    (start envCreatedbFails 1).orphanedServer = true ∧
    (start envCreatedbFails 1).tempDirExists = false :=
  ⟨rfl, rfl, rfl⟩

/-- C4.  If one of the four required tools cannot be resolved, `start` fails
with the distinct error variant for that tool, before any resource
allocation: the trace holds only the `which` lookups made so far — no
storage root was created, nothing was spawned — and no storage root or
orphaned process exists after the call returns.  The four lookups happen in
the source's order (`postgres`, `initdb`, `createdb`, `pg_isready`), each
conjunct pinning the lookups before the missing one. -/
theorem claim4_missing_tool_fails_before_allocation (env : Env) (fuel : Nat) :
    (env.whichPostgres = none →
      start env fuel =
        ⟨.err .CouldNotFindPostgresCommand, [.whichCmd .postgres], false, false⟩) ∧
    (∀ pp, env.whichPostgres = some pp → env.whichInitdb = none →
      start env fuel =
        ⟨.err .CouldNotFindInitDbCommand,
         [.whichCmd .postgres, .whichCmd .initdb], false, false⟩) ∧
    (∀ pp ip, env.whichPostgres = some pp → env.whichInitdb = some ip →
      env.whichCreatedb = none →
      start env fuel =
        ⟨.err .CouldNotFindCreateDbCommand,
         [.whichCmd .postgres, .whichCmd .initdb, .whichCmd .createdb], false, false⟩) ∧
    (∀ pp ip cp, env.whichPostgres = some pp → env.whichInitdb = some ip →
      env.whichCreatedb = some cp → env.whichPgIsready = none →
      start env fuel =
        ⟨.err .CouldNotFindPgIsReadyCommand,
         [.whichCmd .postgres, .whichCmd .initdb, .whichCmd .createdb,
          .whichCmd .pgIsready], false, false⟩) ∧
    (∀ p, Event.tempDirCreate p ∈ (start env fuel).trace → env.whichPostgres ≠ none ∧
      env.whichInitdb ≠ none ∧ env.whichCreatedb ≠ none ∧ env.whichPgIsready ≠ none) := by
  refine ⟨?_, ?_, ?_, ?_, ?_⟩
  · intro h1
    simp [start, h1]
  · intro pp h1 h2
    simp [start, h1, h2]
  · intro pp ip h1 h2 h3
    simp [start, h1, h2, h3]
  · intro pp ip cp h1 h2 h3 h4
    simp [start, h1, h2, h3, h4]
  · intro p hmem
    refine ⟨?_, ?_, ?_, ?_⟩ <;>
      · intro hn
        rcases hn1 : env.whichPostgres with _ | pp
        · simp [start, hn1] at hmem
        · rcases hn2 : env.whichInitdb with _ | ip
          · simp [start, hn1, hn2] at hmem
          · rcases hn3 : env.whichCreatedb with _ | cp
            · simp [start, hn1, hn2, hn3] at hmem
            · rcases hn4 : env.whichPgIsready with _ | rp
              · simp [start, hn1, hn2, hn3, hn4] at hmem
              · simp_all

/-- Oracle with the `postgres` lookup failing. -/
def envNoPostgres : Env := { baseEnv with whichPostgres := none }

/-- Oracle with the `initdb` lookup failing. -/
def envNoInitdb : Env := { baseEnv with whichInitdb := none }

/-- Oracle with the `createdb` lookup failing. -/
def envNoCreatedb : Env := { baseEnv with whichCreatedb := none }

/-- Oracle with the `pg_isready` lookup failing. -/
def envNoPgIsready : Env := { baseEnv with whichPgIsready := none }

/-- Witness for C4: each missing tool, on a concrete oracle, produces its
distinct error with only `which` lookups in the trace. -/
theorem claim4_missing_tool_fails_before_allocation_witness :
    start envNoPostgres 1 =
      ⟨.err .CouldNotFindPostgresCommand, [.whichCmd .postgres], false, false⟩ ∧
    start envNoInitdb 1 =
      ⟨.err .CouldNotFindInitDbCommand,
       [.whichCmd .postgres, .whichCmd .initdb], false, false⟩ ∧
    start envNoCreatedb 1 =
      ⟨.err .CouldNotFindCreateDbCommand,
       [.whichCmd .postgres, .whichCmd .initdb, .whichCmd .createdb], false, false⟩ ∧
    start envNoPgIsready 1 =
      ⟨.err .CouldNotFindPgIsReadyCommand,
       [.whichCmd .postgres, .whichCmd .initdb, .whichCmd .createdb,
        .whichCmd .pgIsready], false, false⟩ :=
  ⟨(claim4_missing_tool_fails_before_allocation envNoPostgres 1).1 rfl,
   (claim4_missing_tool_fails_before_allocation envNoInitdb 1).2.1 "/usr/bin/postgres" rfl rfl,
   (claim4_missing_tool_fails_before_allocation envNoCreatedb 1).2.2.1
     "/usr/bin/postgres" "/usr/bin/initdb" rfl rfl rfl,
   (claim4_missing_tool_fails_before_allocation envNoPgIsready 1).2.2.2.1
     "/usr/bin/postgres" "/usr/bin/initdb" "/usr/bin/createdb" rfl rfl rfl rfl⟩

/-- C5.  When `initdb` exits non-zero (after the four lookups, the storage
root and both subdirectories succeeded), `start` returns
`Err(InitDbFailed)`; the trace shows the storage root and its `data` and
`tmp` subdirectories were created earlier in the same run, and
`tempDirExists = false` records that the dropped `TempDir` removed the
storage root before the failed call returns. -/
theorem claim5_initdb_failure_removes_storage_root (env : Env) (fuel : Nat)
    (pp ip cp rp basePath : String)
    (ht : toolsResolved env pp ip cp rp)
    (h5 : env.tempDirNew = .ok basePath) (h6 : env.mkdirData = .ok ())
    (h7 : env.mkdirTmp = .ok ()) (h8 : env.initdbOutput = some ⟨false⟩) :
    start env fuel =
      ⟨.err .InitDbFailed,
       [.whichCmd .postgres, .whichCmd .initdb, .whichCmd .createdb, .whichCmd .pgIsready,
        .tempDirCreate basePath, .mkdir (basePath ++ "/data"), .mkdir (basePath ++ "/tmp"),
        .runTool .initdb (initdbArgs (basePath ++ "/data"))],
       false, false⟩ := by
  obtain ⟨h1, h2, h3, h4⟩ := ht
  simp only [start, h1, h2, h3, h4, h5, h6, h7, h8]
  rfl

/-- A healthy run in which `initdb` exits non-zero. -/
def envInitdbFails : Env := { baseEnv with initdbOutput := some ⟨false⟩ }

/-- Witness for C5 at a concrete oracle. -/
theorem claim5_initdb_failure_removes_storage_root_witness :
    start envInitdbFails 1 =
      ⟨.err .InitDbFailed,
       [.whichCmd .postgres, .whichCmd .initdb, .whichCmd .createdb, .whichCmd .pgIsready,
        .tempDirCreate "/tmp/postgresql-Ab12Cd", .mkdir "/tmp/postgresql-Ab12Cd/data",
        .mkdir "/tmp/postgresql-Ab12Cd/tmp",
        .runTool .initdb (initdbArgs "/tmp/postgresql-Ab12Cd/data")],
       false, false⟩ :=
  claim5_initdb_failure_removes_storage_root envInitdbFails 1
    "/usr/bin/postgres" "/usr/bin/initdb" "/usr/bin/createdb" "/usr/bin/pg_isready"
    "/tmp/postgresql-Ab12Cd" ⟨rfl, rfl, rfl, rfl⟩ rfl rfl rfl rfl

/-- C2 counterexample.  The claim orders the Resource Allocator
(storage-root creation *and* port reservation) strictly before the Server
Bootstrapper (`initdb`, then spawn).  On a fully healthy concrete run the
code reserves the port *after* running `initdb`: the first port-reservation
event does not precede the first `initdb` event — the `initdb` event
precedes it. -/
theorem claim2_port_after_initdb_counterexample :
    (start baseEnv 1).result = .ok ⟨some "/tmp/postgresql-Ab12Cd", 54321⟩ ∧
    before (start baseEnv 1).trace isBindPortEvt isInitdbEvt = false ∧
    before (start baseEnv 1).trace isInitdbEvt isBindPortEvt = true :=
  ⟨rfl, rfl, rfl⟩

/-- C2 as amended.  In every run that reaches the spawn, the stages execute
strictly top-to-bottom in the source's order: storage-root creation (with
both subdirectories) completes before the init tool runs; the init tool
completes before the loopback port is reserved; the port reservation
completes before the server spawn; and the spawn completes before readiness
polling begins.  The trace is exactly `setupTrace` followed by the polling
events. -/
theorem claim2_stage_order_amended (env : Env) (fuel : Nat)
    (pp ip cp rp basePath : String) (port : Nat)
    (ht : toolsResolved env pp ip cp rp) (hs : reachesSpawn env basePath port)
    (hfuel : 0 < fuel) :
    (∃ rest, (start env fuel).trace =
      setupTrace basePath port ++ Event.tryWaitCheck 0 :: rest) ∧
    before (start env fuel).trace isTempDirCreateEvt isInitdbEvt = true ∧
    before (start env fuel).trace isInitdbEvt isBindPortEvt = true ∧
    before (start env fuel).trace isBindPortEvt isSpawnEvt = true ∧
    before (start env fuel).trace isSpawnEvt isPollEvt = true := by
  obtain ⟨f, rfl⟩ : ∃ f, fuel = f + 1 := ⟨fuel - 1, by omega⟩
  obtain ⟨t, htl⟩ := pollLoop_head env port f 0
  obtain ⟨rest, hrest⟩ := finish_trace_shape env basePath port
    (setupTrace basePath port) (pollLoop env port (f + 1) 0)
  have htr : (start env (f + 1)).trace =
      setupTrace basePath port ++ Event.tryWaitCheck 0 :: (t ++ rest) := by
    rw [start_spawn_eq ht hs, hrest, htl]
    simp
  refine ⟨⟨t ++ rest, htr⟩, ?_, ?_, ?_, ?_⟩ <;> rw [htr] <;> rfl

/-- Witness for the amended C2 at a concrete healthy oracle. -/
theorem claim2_stage_order_amended_witness :
    before (start baseEnv 1).trace isInitdbEvt isBindPortEvt = true ∧
    before (start baseEnv 1).trace isSpawnEvt isPollEvt = true := by
  have h := claim2_stage_order_amended baseEnv 1
    "/usr/bin/postgres" "/usr/bin/initdb" "/usr/bin/createdb" "/usr/bin/pg_isready"
    "/tmp/postgresql-Ab12Cd" 54321
    ⟨rfl, rfl, rfl, rfl⟩ ⟨rfl, rfl, rfl, rfl, rfl, rfl⟩ (by omega)
  exact ⟨h.2.2.1, h.2.2.2.2⟩

/-- C6.  If the loop runs `j` non-terminal iterations (process alive, probe
not ready) and in iteration `j` the process has exited, `start` stops
polling at once and returns `Err(PostgresFailed)`: the trace ends with the
`try_wait` check of iteration `j` and contains no probe at or after
iteration `j`. -/
theorem claim6_process_exit_stops_polling (env : Env) (fuel : Nat)
    (pp ip cp rp basePath : String) (port j c : Nat)
    (ht : toolsResolved env pp ip cp rp) (hs : reachesSpawn env basePath port)
    (hpre : ∀ k, k < j → aliveAndFail env k)
    (hexit : env.tryWaitRes j = .ok (some c))
    (hfuel : j < fuel) :
    (start env fuel).result = .err .PostgresFailed ∧
    (start env fuel).trace =
      setupTrace basePath port ++ (failIters port 0 j ++ [.tryWaitCheck j]) ∧
    (∀ n a, Event.probe n a ∈ (start env fuel).trace → n < j) := by
  have hstep : stepTerminal env port (0 + j) = some ([.tryWaitCheck j], .exited) := by
    simp [stepTerminal, Nat.zero_add, hexit]
  have hpre' : ∀ k, k < j → aliveAndFail env (0 + k) := by simpa using hpre
  have hloop := pollLoop_terminal j 0 fuel hpre' hstep hfuel
  rw [start_spawn_eq ht hs, hloop]
  refine ⟨rfl, rfl, ?_⟩
  intro n a hmem
  simp only [finishFromLoop, List.mem_append] at hmem
  rcases hmem with h | h | h
  · simp [setupTrace] at h
  · have := probe_mem_failIters h
    omega
  · simp at h

/-- Oracle in which the server process dies between the first and second
polling iteration: alive and not ready at iteration 0, exited with status 1
at iteration 1. -/
def envServerDies : Env :=
  { baseEnv with
    tryWaitRes := fun i => if i = 0 then .ok none else .ok (some 1)
    isreadyOutput := fun _ => some ⟨false⟩ }

/-- Witness for C6 at a concrete oracle, with one non-terminal iteration. -/
theorem claim6_process_exit_stops_polling_witness :
    (start envServerDies 2).result = .err .PostgresFailed ∧
    (start envServerDies 2).trace =
      setupTrace "/tmp/postgresql-Ab12Cd" 54321 ++
        (failIters 54321 0 1 ++ [.tryWaitCheck 1]) := by
  have h := claim6_process_exit_stops_polling envServerDies 2
    "/usr/bin/postgres" "/usr/bin/initdb" "/usr/bin/createdb" "/usr/bin/pg_isready"
    "/tmp/postgresql-Ab12Cd" 54321 1 1
    ⟨rfl, rfl, rfl, rfl⟩ ⟨rfl, rfl, rfl, rfl, rfl, rfl⟩
    (by
      intro k hk
      interval_cases k
      exact ⟨rfl, rfl⟩)
    rfl (by omega)
  exact ⟨h.1, h.2.1⟩

/-- C7.  The readiness loop sleeps a fixed 500 ms between attempts and has
no retry cap: for every `N`, if the process stays alive and the probe fails
the first `N` times and then succeeds (with enough polling fuel in the
model, which bounds nothing in the source), construction succeeds with the
handle holding the storage root and port, the trace contains exactly `N`
sleep events — hence at least `N` sleeps — and every sleep in the run is
500 ms. -/
theorem claim7_fixed_interval_unbounded_retries (env : Env) (fuel : Nat)
    (pp ip cp rp basePath : String) (port N : Nat)
    (ht : toolsResolved env pp ip cp rp) (hs : reachesSpawn env basePath port)
    (hpre : ∀ k, k < N → aliveAndFail env k)
    (halive : env.tryWaitRes N = .ok none)
    (hready : env.isreadyOutput N = some ⟨true⟩)
    (hcdb : env.createdbOutput = some ⟨true⟩)
    (hfuel : N < fuel) :
    (start env fuel).result = .ok ⟨some basePath, port⟩ ∧
    countSleeps (start env fuel).trace = N ∧
    N ≤ countSleeps (start env fuel).trace ∧
    (∀ ms, Event.sleep ms ∈ (start env fuel).trace → ms = 500) := by
  have hstep : stepTerminal env port (0 + N) =
      some ([.tryWaitCheck N, .probe N (pgIsreadyArgs port)], .ready) := by
    simp [stepTerminal, Nat.zero_add, halive, hready]
  have hpre' : ∀ k, k < N → aliveAndFail env (0 + k) := by simpa using hpre
  have hloop := pollLoop_terminal N 0 fuel hpre' hstep hfuel
  rw [start_spawn_eq ht hs, hloop,
    finishFromLoop_ready_ok basePath port _ _ hcdb]
  have hcount : countSleeps
      (setupTrace basePath port ++
        (failIters port 0 N ++ [.tryWaitCheck N, .probe N (pgIsreadyArgs port)]) ++
        [.runTool .createdb (createdbArgs port)]) = N := by
    simp only [countSleeps_append, countSleeps_failIters]
    have h1 : countSleeps (setupTrace basePath port) = 0 := rfl
    have h2 : countSleeps [Event.tryWaitCheck N, .probe N (pgIsreadyArgs port)] = 0 := rfl
    have h3 : countSleeps [Event.runTool .createdb (createdbArgs port)] = 0 := rfl
    omega
  refine ⟨rfl, hcount, le_of_eq hcount.symm, ?_⟩
  intro ms hmem
  simp only [List.mem_append] at hmem
  rcases hmem with (h | h | h) | h
  · simp [setupTrace] at h
  · exact sleep_mem_failIters h
  · simp at h
  · simp at h

/-- Oracle in which the probe fails twice before succeeding: the server
stays alive throughout and `pg_isready` reports ready from iteration 2 on. -/
def envSlowReady : Env :=
  { baseEnv with isreadyOutput := fun i => some ⟨decide (2 ≤ i)⟩ }

/-- Witness for C7 at a concrete oracle with `N = 2` failed probes. -/
theorem claim7_fixed_interval_unbounded_retries_witness :
    (start envSlowReady 3).result = .ok ⟨some "/tmp/postgresql-Ab12Cd", 54321⟩ ∧
    countSleeps (start envSlowReady 3).trace = 2 := by
  have h := claim7_fixed_interval_unbounded_retries envSlowReady 3
    "/usr/bin/postgres" "/usr/bin/initdb" "/usr/bin/createdb" "/usr/bin/pg_isready"
    "/tmp/postgresql-Ab12Cd" 54321 2
    ⟨rfl, rfl, rfl, rfl⟩ ⟨rfl, rfl, rfl, rfl, rfl, rfl⟩
    (by
      intro k hk
      interval_cases k
      · exact ⟨rfl, rfl⟩
      · exact ⟨rfl, rfl⟩)
    rfl rfl rfl (by omega)
  exact ⟨h.1, h.2.1⟩

/-- A healthy run in which the OS-level spawn of the server process fails. -/
def envSpawnFails : Env := { baseEnv with spawnOk := none }

/-- C3 counterexample.  The claim says every generic OS-level construction
failure — it lists process spawn and tool output collection among them — is
surfaced as the typed `IoError` result and never escapes as a panic.  On a
concrete run in which the spawn itself fails, the source's
`.expect("failed to execute psql")` panics: the failure leaves the function
by the panic channel, not as a typed `Err`. -/
theorem claim3_spawn_failure_panics_counterexample :
    (start envSpawnFails 1).result = .panic "failed to execute psql" ∧
    (start envSpawnFails 1).result.isErr = false :=
  ⟨rfl, rfl⟩

/-- C3 as amended.  Failures of directory creation (`TempDir::new`,
`fs::create_dir` for `data` and for `tmp`), of port binding
(`get_unused_port`) and of the process poll (`try_wait`) are surfaced to
the caller as the typed `Err(IoError(_))` result; failures of the OS-level
process spawn and of tool output collection (`initdb` here, and the probe
and `createdb` analogously) escape by panic (`.expect`), not as a typed
result. -/
theorem claim3_io_failures_typed_spawn_and_output_panic (env : Env) (fuel : Nat)
    (pp ip cp rp : String) (ht : toolsResolved env pp ip cp rp) :
    (∀ e, env.tempDirNew = .error e →
      (start env fuel).result = .err (.IoError e)) ∧
    (∀ e bp, env.tempDirNew = .ok bp → env.mkdirData = .error e →
      (start env fuel).result = .err (.IoError e)) ∧
    (∀ e bp, env.tempDirNew = .ok bp → env.mkdirData = .ok () →
      env.mkdirTmp = .error e →
      (start env fuel).result = .err (.IoError e)) ∧
    (∀ bp, env.tempDirNew = .ok bp → env.mkdirData = .ok () →
      env.mkdirTmp = .ok () → env.initdbOutput = none →
      (start env fuel).result = .panic "failed to execute initdb") ∧
    (∀ e bp, env.tempDirNew = .ok bp → env.mkdirData = .ok () →
      env.mkdirTmp = .ok () → env.initdbOutput = some ⟨true⟩ →
      env.bindPort = .error e →
      (start env fuel).result = .err (.IoError e)) ∧
    (∀ bp port, env.tempDirNew = .ok bp → env.mkdirData = .ok () →
      env.mkdirTmp = .ok () → env.initdbOutput = some ⟨true⟩ →
      env.bindPort = .ok port → env.spawnOk = none →
      (start env fuel).result = .panic "failed to execute psql") ∧
    (∀ e bp port, reachesSpawn env bp port → env.tryWaitRes 0 = .error e →
      0 < fuel →
      (start env fuel).result = .err (.IoError e)) := by
  obtain ⟨h1, h2, h3, h4⟩ := ht
  refine ⟨?_, ?_, ?_, ?_, ?_, ?_, ?_⟩
  · intro e he
    simp [start, h1, h2, h3, h4, he]
  · intro e bp hb he
    simp [start, h1, h2, h3, h4, hb, he]
  · intro e bp hb hd he
    simp [start, h1, h2, h3, h4, hb, hd, he]
  · intro bp hb hd ht' hi
    simp [start, h1, h2, h3, h4, hb, hd, ht', hi]
  · intro e bp hb hd ht' hi he
    simp [start, h1, h2, h3, h4, hb, hd, ht', hi, he]
  · intro bp port hb hd ht' hi hp hsp
    simp [start, h1, h2, h3, h4, hb, hd, ht', hi, hp, hsp]
  · intro e bp port hs htw hfuel
    have hstep : stepTerminal env port (0 + 0) = some ([.tryWaitCheck 0], .ioErr e) := by
      simp [stepTerminal, htw]
    have hloop := pollLoop_terminal 0 0 fuel (by omega) hstep hfuel
    rw [start_spawn_eq ⟨h1, h2, h3, h4⟩ hs, hloop]
    rfl

/-- A healthy run in which `TempDir::new` fails with OS error 13. -/
def envTempDirFails : Env := { baseEnv with tempDirNew := .error ⟨13⟩ }

/-- A healthy run in which binding the throwaway listener fails with OS
error 98. -/
def envBindFails : Env := { baseEnv with bindPort := .error ⟨98⟩ }

/-- A healthy run in which the first `try_wait` poll fails with OS error 4. -/
def envTryWaitFails : Env :=
  { baseEnv with tryWaitRes := fun _ => .error ⟨4⟩ }

/-- Witness for the amended C3: on concrete oracles, a `TempDir::new`
failure, a port-binding failure and a `try_wait` failure come back as the
typed `IoError`, while a spawn failure panics. -/
theorem claim3_io_failures_typed_spawn_and_output_panic_witness :
    (start envTempDirFails 1).result = .err (.IoError ⟨13⟩) ∧
    (start envBindFails 1).result = .err (.IoError ⟨98⟩) ∧
    (start envTryWaitFails 1).result = .err (.IoError ⟨4⟩) ∧
    (start envSpawnFails 1).result = .panic "failed to execute psql" :=
  ⟨(claim3_io_failures_typed_spawn_and_output_panic envTempDirFails 1
      "/usr/bin/postgres" "/usr/bin/initdb" "/usr/bin/createdb" "/usr/bin/pg_isready"
      ⟨rfl, rfl, rfl, rfl⟩).1 ⟨13⟩ rfl,
   (claim3_io_failures_typed_spawn_and_output_panic envBindFails 1
      "/usr/bin/postgres" "/usr/bin/initdb" "/usr/bin/createdb" "/usr/bin/pg_isready"
      ⟨rfl, rfl, rfl, rfl⟩).2.2.2.2.1 ⟨98⟩ "/tmp/postgresql-Ab12Cd" rfl rfl rfl rfl rfl,
   (claim3_io_failures_typed_spawn_and_output_panic envTryWaitFails 1
      "/usr/bin/postgres" "/usr/bin/initdb" "/usr/bin/createdb" "/usr/bin/pg_isready"
      ⟨rfl, rfl, rfl, rfl⟩).2.2.2.2.2.2 ⟨4⟩ "/tmp/postgresql-Ab12Cd" 54321
      ⟨rfl, rfl, rfl, rfl, rfl, rfl⟩ rfl (by omega),
   (claim3_io_failures_typed_spawn_and_output_panic envSpawnFails 1
      "/usr/bin/postgres" "/usr/bin/initdb" "/usr/bin/createdb" "/usr/bin/pg_isready"
      ⟨rfl, rfl, rfl, rfl⟩).2.2.2.2.2.1 "/tmp/postgresql-Ab12Cd" 54321
      rfl rfl rfl rfl rfl rfl⟩

/-- C8.  The teardown (`Drop for PsqlServer`) performs, in order: kill the
owned process, block until it is reaped, and only then delete the storage
root — the delete step occurs only in the full trace `[kill, wait,
removeDir]`, so the storage root is never deleted while the process may
still be running; a clean finish is exactly that full trace; and if the
kill, the wait or the delete fails, teardown panics (aborts) with the
source's message instead of swallowing the failure.  (That the drop glue
runs exactly once when the handle is released is Rust's `Drop` semantics,
outside the embedded function itself.) -/
theorem claim8_teardown_order_and_panics (s : PsqlServer) (denv : DropEnv) :
    ((dropPsql s denv).2 = .ok →
      (dropPsql s denv).1 = [.kill, .wait, .removeDir]) ∧
    (DropEvent.removeDir ∈ (dropPsql s denv).1 →
      (dropPsql s denv).1 = [.kill, .wait, .removeDir] ∧ (dropPsql s denv).2 = .ok) ∧
    ((dropPsql s denv).2 ≠ .ok → ∃ m, (dropPsql s denv).2 = .panicked m) ∧
    (∀ e, denv.killResult = .error e →
      dropPsql s denv = ([], .panicked "failed to kill postgres")) ∧
    (∀ e, denv.killResult = .ok () → denv.waitResult = .error e →
      dropPsql s denv = ([.kill], .panicked "....")) ∧
    (∀ e p, denv.killResult = .ok () → denv.waitResult = .ok () →
      s.baseDir = some p → denv.closeResult = .error e →
      dropPsql s denv = ([.kill, .wait], .panicked "failed to delete temp dir")) := by
  obtain ⟨k, w, c⟩ := denv
  rcases k with ek | ⟨⟩
  · refine ⟨?_, ?_, ?_, ?_, ?_, ?_⟩ <;> intro h <;> simp_all [dropPsql]
  · rcases w with ew | ⟨⟩
    · refine ⟨?_, ?_, ?_, ?_, ?_, ?_⟩ <;> intro h <;> simp_all [dropPsql]
    · rcases hb : s.baseDir with _ | p
      · refine ⟨?_, ?_, ?_, ?_, ?_, ?_⟩ <;> intro h <;> simp_all [dropPsql]
      · rcases c with ec | ⟨⟩
        · refine ⟨?_, ?_, ?_, ?_, ?_, ?_⟩ <;> intro h <;> simp_all [dropPsql]
        · refine ⟨?_, ?_, ?_, ?_, ?_, ?_⟩ <;> intro h <;> simp_all [dropPsql]

/-- A teardown oracle on which every step succeeds. -/
def dropEnvOk : DropEnv := ⟨.ok (), .ok (), .ok ()⟩

/-- A handle as produced by a successful construction. -/
def psqlHandle : PsqlServer := ⟨some "/tmp/postgresql-Ab12Cd", 54321⟩

/-- Witness for C8: on a concrete handle and healthy teardown oracle, a
clean teardown runs exactly kill, wait, delete in order. -/
theorem claim8_teardown_order_and_panics_witness :
    (dropPsql psqlHandle dropEnvOk).1 = [.kill, .wait, .removeDir] :=
  (claim8_teardown_order_and_panics psqlHandle dropEnvOk).1 rfl

/-- C9.  In every run that reaches the spawn, `initdb` is invoked against
the `data` subdirectory (`-D`), with non-localized messages
(`--lc-messages=C`), the default superuser name (`-U postgres`) and trust
authentication (`-A trust`) — and nothing else, so no prompt-inducing
option; and the server is spawned with the reserved port (`-p`), the
loopback address (`-h 127.0.0.1`), the `data` subdirectory (`-D`), the
`tmp` subdirectory as runtime-socket directory (`-k`), the `-F` flag, the
logging collector disabled (`-c logging_collector=off`), and its stdout and
stderr piped rather than written to files. -/
theorem claim9_initdb_and_postgres_invocations (env : Env) (fuel : Nat)
    (pp ip cp rp basePath : String) (port : Nat)
    (ht : toolsResolved env pp ip cp rp) (hs : reachesSpawn env basePath port) :
    Event.runTool .initdb (initdbArgs (basePath ++ "/data"))
        ∈ (start env fuel).trace ∧
    Event.spawnServer
        (postgresArgs port (basePath ++ "/data") (basePath ++ "/tmp")) true true
        ∈ (start env fuel).trace ∧
    initdbArgs (basePath ++ "/data") =
      ["-D", basePath ++ "/data", "--lc-messages=C", "-U", "postgres", "-A", "trust"] ∧
    postgresArgs port (basePath ++ "/data") (basePath ++ "/tmp") =
      ["-p", toString port, "-D", basePath ++ "/data", "-k", basePath ++ "/tmp",
       "-h", "127.0.0.1", "-F", "-c", "logging_collector=off"] := by
  obtain ⟨rest, hrest⟩ := finish_trace_shape env basePath port
    (setupTrace basePath port) (pollLoop env port fuel 0)
  have htr : (start env fuel).trace =
      setupTrace basePath port ++ ((pollLoop env port fuel 0).1 ++ rest) := by
    rw [start_spawn_eq ht hs, hrest]
    simp
  rw [htr]
  refine ⟨?_, ?_, rfl, rfl⟩ <;>
    · apply List.mem_append_left
      simp [setupTrace]

/-- Witness for C9 at a concrete healthy oracle. -/
theorem claim9_initdb_and_postgres_invocations_witness :
    Event.runTool .initdb (initdbArgs "/tmp/postgresql-Ab12Cd/data")
        ∈ (start baseEnv 1).trace ∧
    Event.spawnServer
        (postgresArgs 54321 "/tmp/postgresql-Ab12Cd/data" "/tmp/postgresql-Ab12Cd/tmp")
        true true ∈ (start baseEnv 1).trace := by
  have h := claim9_initdb_and_postgres_invocations baseEnv 1
    "/usr/bin/postgres" "/usr/bin/initdb" "/usr/bin/createdb" "/usr/bin/pg_isready"
    "/tmp/postgresql-Ab12Cd" 54321
    ⟨rfl, rfl, rfl, rfl⟩ ⟨rfl, rfl, rfl, rfl, rfl, rfl⟩
  exact ⟨h.1, h.2.1⟩

/-- C10.  Every handle returned by a successful construction holds the
`TempDir` (`base_dir` is `Some`), so the `Debug` formatter's and the drop
glue's `unwrap` on it cannot panic (a teardown whose kill, wait and delete
succeed finishes cleanly); the handle's port is exactly the reserved port
(`get_unused_port`'s answer); and the workspace was provisioned by
`createdb` with the fixed name `test` and the fixed superuser `postgres`.
(That `port` is the struct's only `pub` field is a declaration-level fact
of the source, mirrored in the model by the handle carrying nothing else
observable.) -/
theorem claim10_handle_invariants (env : Env) (fuel : Nat) (s : PsqlServer)
    (h : (start env fuel).result = .ok s) :
    (∃ bp, s.baseDir = some bp) ∧
    env.bindPort = .ok s.port ∧
    (debugFmt s).isSome = true ∧
    (∀ denv : DropEnv, denv.killResult = .ok () → denv.waitResult = .ok () →
      denv.closeResult = .ok () →
      dropPsql s denv = ([.kill, .wait, .removeDir], .ok)) ∧
    Event.runTool .createdb (createdbArgs s.port) ∈ (start env fuel).trace ∧
    "test" ∈ createdbArgs s.port ∧
    (∃ l r, createdbArgs s.port = l ++ ["-U", "postgres"] ++ r) := by
  rcases h1 : env.whichPostgres with _ | pp
  · simp [start, h1] at h
  rcases h2 : env.whichInitdb with _ | ip
  · simp [start, h1, h2] at h
  rcases h3 : env.whichCreatedb with _ | cp
  · simp [start, h1, h2, h3] at h
  rcases h4 : env.whichPgIsready with _ | rp
  · simp [start, h1, h2, h3, h4] at h
  rcases h5 : env.tempDirNew with e | bp
  · simp [start, h1, h2, h3, h4, h5] at h
  rcases h6 : env.mkdirData with e | ⟨⟩
  · simp [start, h1, h2, h3, h4, h5, h6] at h
  rcases h7 : env.mkdirTmp with e | ⟨⟩
  · simp [start, h1, h2, h3, h4, h5, h6, h7] at h
  rcases h8 : env.initdbOutput with _ | out
  · simp [start, h1, h2, h3, h4, h5, h6, h7, h8] at h
  obtain ⟨b⟩ := out
  rcases b
  · simp [start, h1, h2, h3, h4, h5, h6, h7, h8] at h
  rcases h9 : env.bindPort with e | port
  · simp [start, h1, h2, h3, h4, h5, h6, h7, h8, h9] at h
  rcases h10 : env.spawnOk with _ | ⟨⟩
  · simp [start, h1, h2, h3, h4, h5, h6, h7, h8, h9, h10] at h
  have hsp : reachesSpawn env bp port := ⟨h5, h6, h7, h8, h9, h10⟩
  have hse := @start_spawn_eq env pp ip cp rp bp port fuel ⟨h1, h2, h3, h4⟩ hsp
  rw [hse] at h ⊢
  rcases hlp : pollLoop env port fuel 0 with ⟨ltr, ex⟩
  rw [hlp] at h
  rcases ex with _ | ex
  · simp [finishFromLoop] at h
  rcases ex with _ | _ | e | _
  · rcases h11 : env.createdbOutput with _ | cbout
    · simp [finishFromLoop, h11] at h
    obtain ⟨cb⟩ := cbout
    rcases cb
    · rw [finishFromLoop_ready_err bp port _ _ h11] at h
      simp at h
    · rw [finishFromLoop_ready_ok bp port _ _ h11] at h ⊢
      simp only [StartResult.ok.injEq] at h
      subst h
      refine ⟨⟨bp, rfl⟩, rfl, rfl, ?_, ?_, ?_, ?_⟩
      · intro denv hk hw hc
        obtain ⟨dk, dw, dc⟩ := denv
        simp only at hk hw hc
        subst hk; subst hw; subst hc
        rfl
      · simp
      · simp [createdbArgs]
      · exact ⟨["-p", toString port, "-h", "127.0.0.1"], ["test"], rfl⟩
  · simp [finishFromLoop] at h
  · simp [finishFromLoop] at h
  · simp [finishFromLoop] at h

/-- Witness for C10: the concrete healthy run returns a handle with the
`TempDir` held and the reserved port; its invariants follow by the theorem
applied at that run. -/
theorem claim10_handle_invariants_witness :
    (∃ bp, (PsqlServer.mk (some "/tmp/postgresql-Ab12Cd") 54321).baseDir = some bp) ∧
    baseEnv.bindPort = .ok (PsqlServer.mk (some "/tmp/postgresql-Ab12Cd") 54321).port ∧
    (debugFmt (PsqlServer.mk (some "/tmp/postgresql-Ab12Cd") 54321)).isSome = true := by
  have h := claim10_handle_invariants baseEnv 1
    (PsqlServer.mk (some "/tmp/postgresql-Ab12Cd") 54321) rfl
  exact ⟨h.1, h.2.1, h.2.2.1⟩

end TestingPostgres
